import Mathlib

/-!
# Verification of the auth credential-lifecycle engine

Shallow embedding of the auth service of `go-factory-microservice`:
password hashing (bcrypt), JWT issuance/parsing (golang-jwt/v5 with
HMAC signing), the Redis-backed refresh-token session store, the two
`AuthService` variants (the database-backed one in
`services/auth/internal/service` and the in-memory one), the HTTP
handlers of `services/auth/internal/server/http.go`, the HTTP auth
middleware, the error-code-to-status table of
`pkg/common/errors/errors.go`, and the configuration loader of
`pkg/common/config/config.go`.

Modelling conventions:
- Time is an abstract tick counter (`Nat`); the config loader measures
  durations in nanoseconds exactly as Go's `time.Duration` does, and
  all other definitions are uniform in the unit.
- bcrypt and HMAC-SHA256 are modelled symbolically (Dolev-Yao style):
  a digest is a constructor application that is collision-free by
  construction, which is the standard idealization of a collision-
  resistant MAC/hash.  `bcrypt.CompareHashAndPassword` returns an
  error value on mismatch in Go; here it returns `false`.
- A JWT is kept as its three segments.  base64url is a bijection
  between segment text and segment content, so segments are modelled
  directly by their content: the payload is the byte list that JSON
  serialization produces, and a decoding failure of either transport
  layer (base64 charset or JSON structure) is a failure of
  `deserializeClaims`.  The signature is computed over the signing
  input (header plus payload), as in JWS.
- Redis and Postgres are modelled as in-process values (an association
  list for the session store, a list of rows for the users table);
  their operations are total, i.e. the store is assumed reachable.
- `uuid.New()` and the bcrypt salt are nondeterministic in Go and are
  passed as explicit parameters.
-/

namespace GoFactory

/-- Decidable equality for fallible results, so concrete runs of the
model can be checked by evaluation. -/
instance {E A : Type} [DecidableEq E] [DecidableEq A] :
    DecidableEq (Except E A)
  | .error a, .error b =>
    if h : a = b then .isTrue (by rw [h])
    else .isFalse (by intro hc; cases hc; exact h rfl)
  | .error _, .ok _ => .isFalse (by intro hc; cases hc)
  | .ok _, .error _ => .isFalse (by intro hc; cases hc)
  | .ok a, .ok b =>
    if h : a = b then .isTrue (by rw [h])
    else .isFalse (by intro hc; cases hc; exact h rfl)

/-- Byte strings.  Elements are unbounded naturals; every byte the
model constructs is a code point or a small tag, and no claim depends
on an 8-bit bound. -/
abbrev Bytes := List Nat

/-- UTF-32 view of a string as a byte list (one element per char). -/
def strBytes (s : String) : Bytes := s.data.map Char.toNat

/-- Inverse of `strBytes` on its range. -/
def bytesStr (bs : Bytes) : String := ⟨bs.map Char.ofNat⟩

/-! ## bcrypt (golang.org/x/crypto/bcrypt), symbolic -/

/-- Symbolic bcrypt digest: self-contained (carries its salt), and
collision-free by construction — the idealization of
`bcrypt.GenerateFromPassword`'s output. -/
structure BcryptHash where
  password : String
  salt : Nat
deriving DecidableEq

/-- Model of `bcrypt.GenerateFromPassword(password, DefaultCost)`; the
salt is drawn by the library and passed here explicitly. -/
def GenerateFromPassword (password : String) (salt : Nat) : BcryptHash :=
  ⟨password, salt⟩

/-- Model of `bcrypt.CompareHashAndPassword(hash, password)`: recompute
with the stored salt and compare.  Go returns a non-nil error value on
mismatch (it does not panic); modelled as `false`. -/
def CompareHashAndPassword (h : BcryptHash) (password : String) : Bool :=
  h.password == password

/-! ## golang-jwt/v5: algorithms, claims, tokens -/

/-- Signing algorithms: the three HMAC methods, representatives of the
other registered method families (`RS256` for RSA, `ES256` for ECDSA,
`EdDSA`, `none`), and unregistered names. -/
inductive Alg where
  | HS256 | HS384 | HS512
  | RS256 | ES256 | EdDSA
  | nonAlg
  | other (name : String)
deriving DecidableEq

/-- Whether the method is in the HMAC family, i.e. whether the type
assertion `token.Method.(*jwt.SigningMethodHMAC)` succeeds. -/
def Alg.isHMAC : Alg → Bool
  | .HS256 | .HS384 | .HS512 => true
  | _ => false

/-- Whether `jwt.GetSigningMethod` knows the `alg` header value. -/
def Alg.registered : Alg → Bool
  | .other _ => false
  | _ => true

/-- Header `alg` value as text (part of the signing input). -/
def Alg.name : Alg → String
  | .HS256 => "HS256"
  | .HS384 => "HS384"
  | .HS512 => "HS512"
  | .RS256 => "RS256"
  | .ES256 => "ES256"
  | .EdDSA => "EdDSA"
  | .nonAlg => "none"
  | .other s => s

/-- The `JWTClaims` struct of the auth service: `user_id`, `email`,
and the registered claims the service sets (`iat`, `exp`; `sub`
duplicates `user_id` and is omitted; the in-memory variant's `roles`
is not consulted by any verified operation). -/
structure JWTClaims where
  userID : String
  email : String
  iat : Nat
  exp : Nat
deriving DecidableEq

/-- Length-prefixed string encoding inside the payload. -/
def encodeStr (s : String) : Bytes := (strBytes s).length :: strBytes s

/-- JSON serialization of the claims, modelled as an injective
length-prefixed byte format. -/
def serializeClaims (c : JWTClaims) : Bytes :=
  encodeStr c.userID ++ encodeStr c.email ++ [c.iat, c.exp]

/-- Read one length-prefixed string, returning the rest. -/
def readStr (bs : Bytes) : Option (String × Bytes) :=
  match bs with
  | [] => none
  | n :: rest =>
    if n ≤ rest.length then some (bytesStr (rest.take n), rest.drop n) else none

/-- JSON deserialization of a payload segment; `none` is a structural
decode failure (invalid base64 or invalid JSON in Go). -/
def deserializeClaims (bs : Bytes) : Option JWTClaims :=
  match readStr bs with
  | none => none
  | some (uid, r1) =>
    match readStr r1 with
    | none => none
    | some (em, r2) =>
      match r2 with
      | [iat, exp] => some ⟨uid, em, iat, exp⟩
      | _ => none

/-- A compact JWS token: header (its `alg` field; `typ` is constant),
payload segment content, signature segment content. -/
structure Token where
  alg : Alg
  payload : Bytes
  sig : Bytes
deriving DecidableEq

/-- Signing input: header segment, dot, payload segment. -/
def signingInput (a : Alg) (payload : Bytes) : Bytes :=
  strBytes a.name ++ 46 :: payload

/-- Symbolic HMAC-SHA256: keyed, collision-free by construction. -/
def hmacSign (secret : String) (msg : Bytes) : Bytes :=
  (strBytes secret).length :: (strBytes secret ++ msg)

/-- Failure classes of `jwt.ParseWithClaims` relevant here:
`unverifiable` (unknown `alg`, or the keyfunc returned an error),
`malformed` (undecodable segments), `invalidKeyType` (a non-HMAC
method handed the `[]byte` key; surfaced inside
`ErrTokenSignatureInvalid`), `signatureMismatch`
(`ErrTokenSignatureInvalid` proper), `expired`, `usedBeforeIssued`. -/
inductive ParseError where
  | unverifiable | malformed | invalidKeyType
  | signatureMismatch | expired | usedBeforeIssued
deriving DecidableEq

/-- Model of `jwt.ParseWithClaims(tokenString, claims, keyfunc)` with a
symmetric `[]byte(secret)` key, at time `now`.  `checkHMAC` is whether
the keyfunc performs the `token.Method.(*jwt.SigningMethodHMAC)` check
(the service sites do; the HTTP auth middleware's keyfunc does not).
Order follows the library: resolve the method and decode the claims
(`ParseUnverified`), call the keyfunc, verify the signature, then
validate the time claims (`exp` before `iat`). -/
def parseWithClaims (checkHMAC : Bool) (secret : String) (now : Nat)
    (tok : Token) : Except ParseError JWTClaims :=
  if tok.alg.registered = false then .error .unverifiable else
  match deserializeClaims tok.payload with
  | none => .error .malformed
  | some claims =>
    if checkHMAC = true ∧ tok.alg.isHMAC = false then .error .unverifiable
    else if tok.alg.isHMAC = false then .error .invalidKeyType
    else if tok.sig = hmacSign secret (signingInput tok.alg tok.payload) then
      if now < claims.exp then
        if now < claims.iat then .error .usedBeforeIssued else .ok claims
      else .error .expired
    else .error .signatureMismatch

/-- Model of `jwt.NewWithClaims(jwt.SigningMethodHS256, claims)`
followed by `token.SignedString([]byte(secret))`. -/
def newSignedToken (secret : String) (c : JWTClaims) : Token :=
  ⟨.HS256, serializeClaims c,
    hmacSign secret (signingInput .HS256 (serializeClaims c))⟩

/-! ## Redis session store (pkg/common/redis) -/

/-- One stored value with its absolute expiry instant. -/
structure StoreEntry where
  value : Token
  expiresAt : Nat
deriving DecidableEq

/-- The key-value store as an association list; a `SET` shadows any
prior binding of the key, which models Redis overwrite. -/
abbrev SessionStore := List (String × StoreEntry)

/-- Model of `Client.SetWithExpiry(ctx, key, value, expiry)` at `now`. -/
def SetWithExpiry (store : SessionStore) (key : String) (value : Token)
    (now expiry : Nat) : SessionStore :=
  (key, ⟨value, now + expiry⟩) :: store

/-- Model of `Client.GetString(ctx, key)` at `now`: a missing or
TTL-expired key is a `redis.Nil` error, i.e. `none`. -/
def GetString (store : SessionStore) (now : Nat) (key : String) :
    Option Token :=
  match store.find? (fun e => e.1 == key) with
  | none => none
  | some (_, e) => if now < e.expiresAt then some e.value else none

/-! ## User repository (services/auth/internal/repository) -/

/-- A row of the `users` table. -/
structure RepoUser where
  id : String
  email : String
  password : BcryptHash
  firstName : String
  lastName : String
  createdAt : Nat
  updatedAt : Nat
  active : Bool
deriving DecidableEq

/-- Model of `UserRepository.GetByEmail`: the query filters
`WHERE email = $1 AND active = true`. -/
def GetByEmail (db : List RepoUser) (email : String) : Option RepoUser :=
  db.find? (fun u => u.email == email && u.active)

/-- Model of `UserRepository.GetByID`: also filters `active = true`. -/
def GetByID (db : List RepoUser) (id : String) : Option RepoUser :=
  db.find? (fun u => u.id == id && u.active)

/-- Model of `UserRepository.EmailExists`: no `active` filter. -/
def EmailExists (db : List RepoUser) (email : String) : Bool :=
  db.any (fun u => u.email == email)

/-! ## Database-backed AuthService (services/auth/internal/service) -/

/-- The service-layer `User` view (password excluded). -/
structure SvcUser where
  id : String
  email : String
  firstName : String
  lastName : String
  createdAt : Nat
  updatedAt : Nat
  active : Bool
deriving DecidableEq

/-- The struct-copy from a repository row to the service view. -/
def toSvcUser (u : RepoUser) : SvcUser :=
  ⟨u.id, u.email, u.firstName, u.lastName, u.createdAt, u.updatedAt, u.active⟩

/-- The `AuthService` struct: users table, JWT secret, optional Redis
client (carrying the store contents when present), configured TTLs. -/
structure AuthService where
  db : List RepoUser
  jwtSecret : String
  redisClient : Option SessionStore
  tokenExpiry : Nat
  refreshExpiry : Nat
deriving DecidableEq

/-- The service error values (`ErrInvalidCredentials` etc.);
`deactivated` is the in-memory variant's ad-hoc
`errors.New("user account is deactivated")`. -/
inductive AuthErr where
  | invalidCredentials | userExists | userNotFound | invalidToken
  | deactivated
deriving DecidableEq

/-- Model of `generateAccessToken`: HS256 token with `user_id`, `email`,
`iat = now`, `exp = now + tokenExpiry`. -/
def generateAccessToken (s : AuthService) (now : Nat) (u : SvcUser) : Token :=
  newSignedToken s.jwtSecret ⟨u.id, u.email, now, now + s.tokenExpiry⟩

/-- Model of `generateRefreshToken`: same shape with the refresh TTL. -/
def generateRefreshToken (s : AuthService) (now : Nat) (u : SvcUser) : Token :=
  newSignedToken s.jwtSecret ⟨u.id, u.email, now, now + s.refreshExpiry⟩

/-- Model of the service's `parseToken`: `jwt.ParseWithClaims` with the
HMAC-checking keyfunc and the service secret. -/
def parseToken (s : AuthService) (now : Nat) (tok : Token) :
    Except ParseError JWTClaims :=
  parseWithClaims true s.jwtSecret now tok

/-- The Redis key `fmt.Sprintf("refresh_token:%s", userID)`. -/
def refreshKey (userID : String) : String := "refresh_token:" ++ userID

/-- Model of `AuthService.Register`.  `newID` stands for `uuid.New()`
and `salt` for bcrypt's internal randomness. -/
def Register (s : AuthService) (now : Nat)
    (email password firstName lastName : String) (newID : String)
    (salt : Nat) : Except AuthErr SvcUser × AuthService :=
  if EmailExists s.db email then (.error .userExists, s)
  else
    let hashed := GenerateFromPassword password salt
    let repoUser : RepoUser :=
      ⟨newID, email, hashed, firstName, lastName, now, now, true⟩
    (.ok (toSvcUser repoUser), { s with db := repoUser :: s.db })

/-- Model of `AuthService.Login`: look up by email (active rows only),
compare the bcrypt hash, issue both tokens, and mirror the refresh
token in Redis under `refresh_token:<id>` with the refresh TTL when a
Redis client is configured (a failed `SetWithExpiry` is only logged in
Go; the store itself is modelled as reachable). -/
def Login (s : AuthService) (now : Nat) (email password : String) :
    Except AuthErr (SvcUser × Token × Token) × AuthService :=
  match GetByEmail s.db email with
  | none => (.error .invalidCredentials, s)
  | some repoUser =>
    if CompareHashAndPassword repoUser.password password = false then
      (.error .invalidCredentials, s)
    else
      let user := toSvcUser repoUser
      let accessToken := generateAccessToken s now user
      let refreshToken := generateRefreshToken s now user
      match s.redisClient with
      | some store =>
        let store2 :=
          SetWithExpiry store (refreshKey user.id) refreshToken now
            s.refreshExpiry
        (.ok (user, accessToken, refreshToken),
          { s with redisClient := some store2 })
      | none => (.ok (user, accessToken, refreshToken), s)

/-- Model of `AuthService.GetProfile`. -/
def GetProfile (s : AuthService) (userID : String) : Except AuthErr SvcUser :=
  match GetByID s.db userID with
  | none => .error .userNotFound
  | some u => .ok (toSvcUser u)

/-- Model of `AuthService.ValidateToken`: parse (any parse failure
becomes `ErrInvalidToken`), then re-fetch the user. -/
def ValidateToken (s : AuthService) (now : Nat) (tok : Token) :
    Except AuthErr SvcUser :=
  match parseToken s now tok with
  | .error _ => .error .invalidToken
  | .ok claims =>
    match GetProfile s claims.userID with
    | .error _ => .error .userNotFound
    | .ok user => .ok user

/-- Model of `AuthService.RefreshToken`: parse the refresh token; when
a Redis client is configured, require the stored value under
`refresh_token:<claims.UserID>` to equal the presented token; re-fetch
the user; issue a new access token only.  The state (including the
store) is returned unchanged on every path. -/
def RefreshToken (s : AuthService) (now : Nat) (refreshToken : Token) :
    Except AuthErr Token × AuthService :=
  match parseToken s now refreshToken with
  | .error _ => (.error .invalidToken, s)
  | .ok claims =>
    let storeOK : Bool :=
      match s.redisClient with
      | some store =>
        match GetString store now (refreshKey claims.userID) with
        | some stored => stored == refreshToken
        | none => false
      | none => true
    if storeOK = false then (.error .invalidToken, s)
    else
      match GetProfile s claims.userID with
      | .error _ => (.error .userNotFound, s)
      | .ok user => (.ok (generateAccessToken s now user), s)

/-! ## In-memory AuthService variant -/

/-- The in-memory variant's user record (carries roles). -/
structure MemUser where
  id : String
  email : String
  password : BcryptHash
  firstName : String
  lastName : String
  roles : List String
  createdAt : Nat
  updatedAt : Nat
  active : Bool
deriving DecidableEq

/-- The in-memory `AuthService`: a map keyed by email, the JWT secret,
and the optional Redis client. -/
structure MemAuthService where
  users : List (String × MemUser)
  jwtSecret : String
  redisClient : Option SessionStore
deriving DecidableEq

/-- Lookup `s.users[email]` in the email-keyed map. -/
def memLookup (s : MemAuthService) (email : String) : Option MemUser :=
  match s.users.find? (fun p => p.1 == email) with
  | none => none
  | some p => some p.2

/-- The in-memory variant's `generateAccessToken`: hardcoded 15-minute
TTL (ticks are nanoseconds; claim roles are not consulted by any
verified operation and are omitted from the payload model). -/
def memGenerateAccessToken (s : MemAuthService) (now : Nat) (u : MemUser) :
    Token :=
  newSignedToken s.jwtSecret ⟨u.id, u.email, now, now + 900000000000⟩

/-- The in-memory variant's `generateRefreshToken`: hardcoded 7-day TTL. -/
def memGenerateRefreshToken (s : MemAuthService) (now : Nat) (u : MemUser) :
    Token :=
  newSignedToken s.jwtSecret ⟨u.id, u.email, now, now + 604800000000000⟩

/-- Model of the in-memory `AuthService.Login`: find by email, compare
the hash, and only then check `user.Active` — an inactive account with
the correct password gets the ad-hoc deactivated error, not
`ErrInvalidCredentials`.  On success both tokens are issued and the
refresh token is mirrored in Redis for 7 days when a client exists. -/
def MemLogin (s : MemAuthService) (now : Nat) (email password : String) :
    Except AuthErr (MemUser × Token × Token) × MemAuthService :=
  match memLookup s email with
  | none => (.error .invalidCredentials, s)
  | some user =>
    if CompareHashAndPassword user.password password = false then
      (.error .invalidCredentials, s)
    else if user.active = false then (.error .deactivated, s)
    else
      let token := memGenerateAccessToken s now user
      let refreshToken := memGenerateRefreshToken s now user
      match s.redisClient with
      | some store =>
        let store2 :=
          SetWithExpiry store (refreshKey user.id) refreshToken now
            604800000000000
        (.ok (user, token, refreshToken),
          { s with redisClient := some store2 })
      | none => (.ok (user, token, refreshToken), s)

/-- Model of the in-memory `AuthService.ValidateToken`: parse with the
HMAC-checking keyfunc, then look the user up by `claims.Email`. -/
def MemValidateToken (s : MemAuthService) (now : Nat) (tok : Token) :
    Except AuthErr MemUser :=
  match parseWithClaims true s.jwtSecret now tok with
  | .error _ => .error .invalidToken
  | .ok claims =>
    match memLookup s claims.email with
    | none => .error .userNotFound
    | some user => .ok user

/-! ## HTTP layer (pkg/common/response, errors, auth middleware,
services/auth/internal/server/http.go) -/

/-- The response envelope as observed by a client: status code plus the
`APIResponse` fields this verification consults. -/
structure HTTPResponse where
  status : Nat
  success : Bool
  errorCode : Option String
  errorMessage : Option String
  message : Option String
  dataToken : Option Token
  dataRefreshToken : Option Token
  dataUser : Option SvcUser
deriving DecidableEq

/-- Model of `response.BadRequest`. -/
def respBadRequest (msg : String) : HTTPResponse :=
  ⟨400, false, some "BAD_REQUEST", some msg, none, none, none, none⟩

/-- Model of `response.Unauthorized`. -/
def respUnauthorized (msg : String) : HTTPResponse :=
  ⟨401, false, some "UNAUTHORIZED", some msg, none, none, none, none⟩

/-- Model of `errors.getHTTPStatusForCode`. -/
def getHTTPStatusForCode (code : String) : Nat :=
  if code = "UNAUTHORIZED" ∨ code = "INVALID_TOKEN" ∨ code = "EXPIRED_TOKEN"
    then 401
  else if code = "FORBIDDEN" then 403
  else if code = "NOT_FOUND" then 404
  else if code = "VALIDATION_ERROR" ∨ code = "INVALID_INPUT"
      ∨ code = "MISSING_FIELD" then 400
  else if code = "ALREADY_EXISTS" ∨ code = "CONFLICT" then 409
  else if code = "SERVICE_UNAVAILABLE" then 503
  else 500

/-- The `err.Error()` strings of the service error values. -/
def authErrMessage : AuthErr → String
  | .invalidCredentials => "invalid email or password"
  | .userExists => "user already exists"
  | .userNotFound => "user not found"
  | .invalidToken => "invalid token"
  | .deactivated => "user account is deactivated"

/-- Model of the HTTP `register` handler: an undecodable body is a 400;
any service error is answered with `response.BadRequest(err.Error())`
(so never a 409); success is a 201 Created with the user view. -/
def registerHandler (s : AuthService) (now : Nat)
    (req : Option (String × String × String × String)) (newID : String)
    (salt : Nat) : HTTPResponse × AuthService :=
  match req with
  | none => (respBadRequest "Invalid request body", s)
  | some (email, password, firstName, lastName) =>
    match Register s now email password firstName lastName newID salt with
    | (.error e, s2) => (respBadRequest (authErrMessage e), s2)
    | (.ok user, s2) =>
      (⟨201, true, none, none, none, none, none, some user⟩, s2)

/-- Model of the HTTP `refreshToken` handler: on success the response
carries the new access token and echoes the request's refresh token
back (the handler comment reads "Keep the same refresh token"). -/
def refreshTokenHandler (s : AuthService) (now : Nat)
    (req : Option Token) : HTTPResponse × AuthService :=
  match req with
  | none => (respBadRequest "Invalid request body", s)
  | some tok =>
    match RefreshToken s now tok with
    | (.error e, s2) => (respUnauthorized (authErrMessage e), s2)
    | (.ok newToken, s2) =>
      (⟨200, true, none, none, some "Token refreshed successfully",
        some newToken, some tok, none⟩, s2)

/-- Model of the HTTP auth middleware's token handling: a missing
header is a 401; otherwise the token is parsed with a keyfunc that
returns `[]byte(jwtSecret)` without checking the signing method, and
any parse failure is a 401. -/
def AuthMiddleware (jwtSecret : String) (now : Nat) (token : Option Token) :
    Except HTTPResponse JWTClaims :=
  match token with
  | none => .error (respUnauthorized "Authorization header required")
  | some tok =>
    match parseWithClaims false jwtSecret now tok with
    | .error _ => .error (respUnauthorized "Invalid token")
    | .ok claims => .ok claims

/-! ## Configuration (pkg/common/config) -/

/-- Model of Go's `time.ParseDuration` on the integer single-component
fragment (the only shapes this repository passes it): a nonempty digit
run followed by one of the units `ns`, `us`, `µs`, `ms`, `s`, `m`,
`h`, yielding nanoseconds.  Go has no day unit, so `"7d"` is an
error (`none`). -/
def parseGoDuration (s : String) : Option Nat :=
  let ds := s.data.takeWhile Char.isDigit
  let unit : String := ⟨s.data.dropWhile Char.isDigit⟩
  if ds.isEmpty then none
  else
    let n := ds.foldl (fun acc c => acc * 10 + (c.toNat - 48)) 0
    if unit = "ns" then some n
    else if unit = "us" ∨ unit = "µs" then some (n * 1000)
    else if unit = "ms" then some (n * 1000000)
    else if unit = "s" then some (n * 1000000000)
    else if unit = "m" then some (n * 60000000000)
    else if unit = "h" then some (n * 3600000000000)
    else none

/-- Model of `config.getEnv`: the fallback is used when the variable is
unset or empty. -/
def getEnv (env : String → Option String) (key fallback : String) : String :=
  match env key with
  | some v => if v = "" then fallback else v
  | none => fallback

/-- The `AuthConfig` struct (fields this verification consults). -/
structure AuthConfig where
  jwtSecret : String
  tokenExpiry : Nat
  refreshExpiry : Nat
deriving DecidableEq

/-- Model of `config.LoadAuthConfig`: both `time.ParseDuration` errors
are discarded (`tokenExpiry, _ := ...`), leaving the zero duration. -/
def LoadAuthConfig (env : String → Option String) : AuthConfig :=
  let tokenExpiry :=
    (parseGoDuration (getEnv env "JWT_ACCESS_TOKEN_EXPIRY" "15m")).getD 0
  let refreshExpiry :=
    (parseGoDuration (getEnv env "JWT_REFRESH_TOKEN_EXPIRY" "7d")).getD 0
  ⟨getEnv env "JWT_SECRET" "your-super-secret-jwt-key-change-this-in-production",
    tokenExpiry, refreshExpiry⟩

/-! ## Concrete fixtures for evaluated runs -/

/-- An active registered user row. -/
def wRepoUser : RepoUser :=
  ⟨"u1", "a@x.com", GenerateFromPassword "pw123456" 7, "A", "B", 0, 0, true⟩

/-- A service over that row with a (initially empty) Redis store. -/
def wSvc : AuthService := ⟨[wRepoUser], "k", some [], 10, 100⟩

/-- The same service constructed without a Redis client. -/
def wSvcNoRedis : AuthService := ⟨[wRepoUser], "k", none, 10, 100⟩

/-- The service view of the fixture user. -/
def wU : SvcUser := toSvcUser wRepoUser

/-- Tokens of a login at tick 0 against `wSvc`. -/
def wA1 : Token := generateAccessToken wSvc 0 wU

/-- Refresh token of that login. -/
def wR1 : Token := generateRefreshToken wSvc 0 wU

/-- Service state after the first login. -/
def wSt1 : AuthService := (Login wSvc 0 "a@x.com" "pw123456").2

/-- Tokens of a second login at tick 1. -/
def wA2 : Token := generateAccessToken wSt1 1 wU

/-- Refresh token of the second login. -/
def wR2 : Token := generateRefreshToken wSt1 1 wU

/-- Service state after the second login. -/
def wSt2 : AuthService := (Login wSt1 1 "a@x.com" "pw123456").2

/-- Login tokens against the redis-less service. -/
def wA1n : Token := generateAccessToken wSvcNoRedis 0 wU

/-- Refresh token against the redis-less service, tick 0. -/
def wR1n : Token := generateRefreshToken wSvcNoRedis 0 wU

/-- Access token of a second redis-less login, tick 1. -/
def wA2n : Token := generateAccessToken wSvcNoRedis 1 wU

/-- Refresh token of a second redis-less login, tick 1. -/
def wR2n : Token := generateRefreshToken wSvcNoRedis 1 wU

/-- An attacker-supplied token whose header declares RS256. -/
def wForged : Token := ⟨.RS256, serializeClaims ⟨"u1", "a@x.com", 0, 10⟩, [0]⟩

/-- A database whose only user with the probed email is inactive. -/
def wSvcInactive : AuthService :=
  ⟨[⟨"u2", "b@x.com", GenerateFromPassword "pw123456" 3, "A", "B", 0, 0,
      false⟩], "k", none, 10, 100⟩

/-- An inactive in-memory user whose password is known. -/
def wMemInactiveUser : MemUser :=
  ⟨"u3", "c@x.com", GenerateFromPassword "pw123456" 5, "T", "U", ["user"],
    0, 0, false⟩

/-- In-memory service holding only that inactive user. -/
def wMemSvc : MemAuthService := ⟨[("c@x.com", wMemInactiveUser)], "k", none⟩

/-- The service as wired from the default configuration (every
environment variable unset). -/
def wBugSvc : AuthService :=
  ⟨[wRepoUser], "k", none, (LoadAuthConfig (fun _ => none)).tokenExpiry,
    (LoadAuthConfig (fun _ => none)).refreshExpiry⟩

/-! ## Helper lemmas -/

/-- Decoding the code points of a string gives the string back. -/
theorem bytesStr_strBytes (s : String) : bytesStr (strBytes s) = s := by
  unfold bytesStr strBytes
  rw [List.map_map]
  have h : (Char.ofNat ∘ Char.toNat) = id := funext Char.ofNat_toNat
  rw [h, List.map_id]

/-- Reading back a length-prefixed string. -/
theorem readStr_encodeStr (s : String) (t : Bytes) :
    readStr (encodeStr s ++ t) = some (s, t) := by
  rw [show encodeStr s ++ t = (strBytes s).length :: (strBytes s ++ t) from
    by simp [encodeStr]]
  simp only [readStr]
  rw [if_pos (by simp)]
  rw [List.take_left, List.drop_left, bytesStr_strBytes]

/-- The claims serializer round-trips. -/
theorem deserializeClaims_serializeClaims (c : JWTClaims) :
    deserializeClaims (serializeClaims c) = some c := by
  obtain ⟨uid, em, iat, ex⟩ := c
  simp [deserializeClaims, serializeClaims, List.append_assoc,
    readStr_encodeStr]

/-- Parsing an HS256 token issued with the same secret succeeds inside
its validity window and returns the claims as issued. -/
theorem parseWithClaims_newSignedToken (secret : String) (c : JWTClaims)
    (now : Nat) (hiat : c.iat ≤ now) (hexp : now < c.exp) :
    parseWithClaims true secret now (newSignedToken secret c) = .ok c := by
  simp [parseWithClaims, newSignedToken, Alg.registered, Alg.isHMAC,
    deserializeClaims_serializeClaims, hexp, Nat.not_lt.mpr hiat]

/-- Parsing the same token at or after its expiry instant fails with
the expired error. -/
theorem parseWithClaims_newSignedToken_expired (secret : String)
    (c : JWTClaims) (now : Nat) (hexp : c.exp ≤ now) :
    parseWithClaims true secret now (newSignedToken secret c) =
      .error .expired := by
  simp [parseWithClaims, newSignedToken, Alg.registered, Alg.isHMAC,
    deserializeClaims_serializeClaims, Nat.not_lt.mpr hexp]

/-- The symbolic MAC is injective in the message for a fixed key. -/
theorem hmacSign_inj (secret : String) {m m2 : Bytes}
    (h : hmacSign secret m = hmacSign secret m2) : m = m2 := by
  unfold hmacSign at h
  injection h with _ h2
  exact List.append_cancel_left h2

/-- The signing input is injective in the payload for a fixed header. -/
theorem signingInput_inj (a : Alg) {p p2 : Bytes}
    (h : signingInput a p = signingInput a p2) : p = p2 := by
  unfold signingInput at h
  have h2 := List.append_cancel_left h
  injection h2

/-- Overwriting one element with a different value changes the list. -/
theorem set_ne_of_ne {l : Bytes} {i b : Nat} (hi : i < l.length)
    (hb : b ≠ l.getD i 0) : l.set i b ≠ l := by
  intro h
  apply hb
  have h1 : (l.set i b).getD i 0 = b := by
    rw [List.getD_eq_getElem _ 0 (by simpa using hi), List.getElem_set_self]
  rw [h] at h1
  exact h1.symm

/-- A key written by `SetWithExpiry` reads back before its expiry. -/
theorem GetString_SetWithExpiry (store : SessionStore) (key : String)
    (v : Token) (now expiry t : Nat) (h : t < now + expiry) :
    GetString (SetWithExpiry store key v now expiry) t key = some v := by
  simp [GetString, SetWithExpiry, List.find?, h]

/-- Every parsing attempt on a token whose header algorithm is outside
the HMAC family fails, whether or not the keyfunc checks the method:
an unknown name is unverifiable, a registered non-HMAC method is
rejected by the keyfunc at the checking sites and by the key-type
check of the method's `Verify` at the non-checking site. -/
theorem parseWithClaims_nonHMAC_fails (check : Bool) (secret : String)
    (now : Nat) (tok : Token) (halg : tok.alg.isHMAC = false) :
    ∃ e, parseWithClaims check secret now tok = .error e := by
  unfold parseWithClaims
  by_cases hreg : tok.alg.registered = false
  · exact ⟨.unverifiable, by simp [hreg]⟩
  · rcases hdes : deserializeClaims tok.payload with _ | claims
    · exact ⟨.malformed, by simp [hreg, hdes]⟩
    · cases check
      · exact ⟨.invalidKeyType, by simp [hreg, hdes, halg]⟩
      · exact ⟨.unverifiable, by simp [hreg, hdes, halg]⟩

/-- C4: for every claims content (subject, email) and every positive
TTL, a token issued at `t0` with the service secret parses with the
same secret at any `t` inside the window `[t0, t0 + ttl)` and returns
exactly the claims as issued, and parsing after the TTL has elapsed
fails with the Expired error. -/
theorem c4_issue_then_parse (st : AuthService) (u : SvcUser) (t0 t : Nat)
    (hpos : 0 < st.tokenExpiry) (hts : t0 ≤ t) :
    (t < t0 + st.tokenExpiry →
      parseToken st t (generateAccessToken st t0 u) =
        .ok ⟨u.id, u.email, t0, t0 + st.tokenExpiry⟩) ∧
    (t0 + st.tokenExpiry < t →
      parseToken st t (generateAccessToken st t0 u) = .error .expired) := by
  constructor
  · intro hlt
    exact parseWithClaims_newSignedToken st.jwtSecret _ t hts hlt
  · intro hgt
    exact parseWithClaims_newSignedToken_expired st.jwtSecret _ t
      (Nat.le_of_lt hgt)

/-- Witness for C4 at a concrete service, user, and clock. -/
theorem c4_issue_then_parse_witness :
    parseToken wSvc 5 (generateAccessToken wSvc 0 wU) =
      .ok ⟨"u1", "a@x.com", 0, 10⟩ ∧
    parseToken wSvc 11 (generateAccessToken wSvc 0 wU) =
      .error .expired :=
  ⟨(c4_issue_then_parse wSvc wU 0 5 (by decide) (by decide)).1 (by decide),
    (c4_issue_then_parse wSvc wU 0 11 (by decide) (by decide)).2 (by decide)⟩

/-- C6: verifying a password against its own bcrypt digest succeeds,
and verifying a different password against that digest returns false
(a returned value, not an exception). -/
theorem c6_bcrypt_roundtrip (p p1 p2 : String) (salt : Nat) (hne : p1 ≠ p2) :
    CompareHashAndPassword (GenerateFromPassword p salt) p = true ∧
    CompareHashAndPassword (GenerateFromPassword p1 salt) p2 = false := by
  constructor
  · simp [CompareHashAndPassword, GenerateFromPassword]
  · simp only [CompareHashAndPassword, GenerateFromPassword,
      beq_eq_false_iff_ne, ne_eq]
    exact hne

/-- Witness for C6 at concrete passwords. -/
theorem c6_bcrypt_roundtrip_witness :
    CompareHashAndPassword (GenerateFromPassword "pw123456" 7) "pw123456" =
      true ∧
    CompareHashAndPassword (GenerateFromPassword "pw123456" 7) "other" =
      false :=
  c6_bcrypt_roundtrip "pw123456" "pw123456" "other" 7 (by decide)

/-- C7 (bug): Go's `time.ParseDuration` has no day unit, so the
default `"7d"` fails to parse; `LoadAuthConfig` discards the error,
leaving a zero refresh TTL, so under the default configuration a
freshly issued refresh token is already expired at the instant of
issuance (its expiry equals its issuedAt) — contradicting the
documented multi-day refresh TTL, while the access-token default
`"15m"` does load as 15 minutes. -/
theorem c7_refresh_ttl_default_bug :
    parseGoDuration "7d" = none ∧
    (LoadAuthConfig (fun _ => none)).refreshExpiry = 0 ∧
    (LoadAuthConfig (fun _ => none)).tokenExpiry = 900000000000 ∧
    parseToken wBugSvc 0 (generateRefreshToken wBugSvc 0 wU) =
      .error .expired := by
  refine ⟨by decide, by decide, by decide, ?_⟩
  decide

/-- C3: a token whose header algorithm is outside the HMAC family is
rejected at every parsing site — the service `parseToken`, the
operations built on it (`ValidateToken`, `RefreshToken`, which answer
`ErrInvalidToken`), the in-memory variant's `ValidateToken`, and the
HTTP auth middleware (whose keyfunc does not check the method, but the
non-HMAC methods reject the symmetric byte key): the header-declared
algorithm is never accepted. -/
theorem c3_fixed_alg_family (st : AuthService) (ms : MemAuthService)
    (now : Nat) (tok : Token) (halg : tok.alg.isHMAC = false) :
    (∃ e, parseToken st now tok = .error e) ∧
    ValidateToken st now tok = .error .invalidToken ∧
    RefreshToken st now tok = (.error .invalidToken, st) ∧
    MemValidateToken ms now tok = .error .invalidToken ∧
    AuthMiddleware st.jwtSecret now (some tok) =
      .error (respUnauthorized "Invalid token") := by
  obtain ⟨e1, he1⟩ :=
    parseWithClaims_nonHMAC_fails true st.jwtSecret now tok halg
  obtain ⟨e2, he2⟩ :=
    parseWithClaims_nonHMAC_fails false st.jwtSecret now tok halg
  obtain ⟨e3, he3⟩ :=
    parseWithClaims_nonHMAC_fails true ms.jwtSecret now tok halg
  refine ⟨⟨e1, he1⟩, ?_, ?_, ?_, ?_⟩
  · simp [ValidateToken, parseToken, he1]
  · simp [RefreshToken, parseToken, he1]
  · simp [MemValidateToken, he3]
  · simp [AuthMiddleware, he2]

/-- Witness for C3: a concrete RS256-headed token is rejected
everywhere. -/
theorem c3_fixed_alg_family_witness :
    (∃ e, parseToken wSvc 5 wForged = .error e) ∧
    ValidateToken wSvc 5 wForged = .error .invalidToken ∧
    RefreshToken wSvc 5 wForged = (.error .invalidToken, wSvc) ∧
    MemValidateToken wMemSvc 5 wForged = .error .invalidToken ∧
    AuthMiddleware wSvc.jwtSecret 5 (some wForged) =
      .error (respUnauthorized "Invalid token") :=
  c3_fixed_alg_family wSvc wMemSvc 5 wForged (by decide)

/-- C5 as frozen is too strong: flipping the first byte of the payload
segment of a concretely issued token breaks payload decoding, so
parsing fails with the Malformed error — not SignatureMismatch. -/
theorem c5_tamper_counterexample :
    parseWithClaims true "k" 5
        ⟨Alg.HS256, (generateAccessToken wSvc 0 wU).payload.set 0 250,
          (generateAccessToken wSvc 0 wU).sig⟩ =
      .error .malformed ∧
    ParseError.malformed ≠ ParseError.signatureMismatch := by
  refine ⟨by decide, by decide⟩

/-- C5 amended: every single-byte modification of an issued token's
payload or signature segment makes parsing fail — with
SignatureMismatch when the modified payload still decodes, Malformed
when it no longer does — and parsing never succeeds with altered
claims. -/
theorem c5_tamper_detection (st : AuthService) (u : SvcUser) (t0 now : Nat)
    (tok : Token) (htok : tok = generateAccessToken st t0 u) :
    (∀ i b, i < tok.payload.length → b ≠ tok.payload.getD i 0 →
      parseWithClaims true st.jwtSecret now
          ⟨tok.alg, tok.payload.set i b, tok.sig⟩ =
        .error (if (deserializeClaims (tok.payload.set i b)).isSome
          then .signatureMismatch else .malformed)) ∧
    (∀ j c, j < tok.sig.length → c ≠ tok.sig.getD j 0 →
      parseWithClaims true st.jwtSecret now
          ⟨tok.alg, tok.payload, tok.sig.set j c⟩ =
        .error .signatureMismatch) := by
  subst htok
  constructor
  · intro i b hi hb
    have hne := set_ne_of_ne hi hb
    simp only [generateAccessToken, newSignedToken] at hne hi hb ⊢
    by_cases hdes : (deserializeClaims ((serializeClaims
        ⟨u.id, u.email, t0, t0 + st.tokenExpiry⟩).set i b)).isSome = true
    · obtain ⟨claims, hc⟩ := Option.isSome_iff_exists.mp hdes
      rw [if_pos hdes]
      have hsig : ¬ (hmacSign st.jwtSecret (signingInput Alg.HS256
          (serializeClaims ⟨u.id, u.email, t0, t0 + st.tokenExpiry⟩)) =
            hmacSign st.jwtSecret (signingInput Alg.HS256 ((serializeClaims
              ⟨u.id, u.email, t0, t0 + st.tokenExpiry⟩).set i b))) := by
        intro h
        exact hne
          (signingInput_inj Alg.HS256 (hmacSign_inj st.jwtSecret h)).symm
      simp [parseWithClaims, Alg.registered, Alg.isHMAC, hc, hsig]
    · rw [if_neg hdes]
      have hc : deserializeClaims ((serializeClaims
          ⟨u.id, u.email, t0, t0 + st.tokenExpiry⟩).set i b) = none :=
        Option.not_isSome_iff_eq_none.mp (by simpa using hdes)
      simp [parseWithClaims, Alg.registered, Alg.isHMAC, hc]
  · intro j c hj hc
    have hne := set_ne_of_ne hj hc
    simp only [generateAccessToken, newSignedToken] at hne hj hc ⊢
    simp [parseWithClaims, Alg.registered, Alg.isHMAC,
      deserializeClaims_serializeClaims, hne]

/-- Witness for C5 at a concrete token and signature flip. -/
theorem c5_tamper_detection_witness :
    parseWithClaims true wSvc.jwtSecret 5
        ⟨(generateAccessToken wSvc 0 wU).alg,
          (generateAccessToken wSvc 0 wU).payload,
          (generateAccessToken wSvc 0 wU).sig.set 0 250⟩ =
      .error .signatureMismatch :=
  (c5_tamper_detection wSvc wU 0 5 (generateAccessToken wSvc 0 wU) rfl).2
    0 250 (by decide) (by decide)

/-- C2 as frozen is false for the in-memory variant: an inactive
account presented with its correct password gets the distinct
deactivated error, not `ErrInvalidCredentials`. -/
theorem c2_login_counterexample :
    (MemLogin wMemSvc 0 "c@x.com" "pw123456").1 = .error .deactivated ∧
    AuthErr.deactivated ≠ AuthErr.invalidCredentials := by
  refine ⟨by decide, by decide⟩

/-- C2 amended: in the database-backed service all three failure cases
— nonexistent email, wrong password for an existing account, and an
inactive account's correct password (the `active = true` SQL filter
makes inactive rows invisible) — fail with the identical
`ErrInvalidCredentials`; only the in-memory variant's
inactive-with-correct-password case deviates. -/
theorem c2_login_indistinguishable (st : AuthService) (now : Nat)
    (e p : String) :
    (GetByEmail st.db e = none →
      (Login st now e p).1 = .error .invalidCredentials) ∧
    (∀ ru, GetByEmail st.db e = some ru →
      CompareHashAndPassword ru.password p = false →
      (Login st now e p).1 = .error .invalidCredentials) ∧
    ((∀ u0 ∈ st.db, u0.email = e → u0.active = false) →
      (Login st now e p).1 = .error .invalidCredentials) := by
  refine ⟨?_, ?_, ?_⟩
  · intro h
    simp [Login, h]
  · intro ru h hbc
    simp [Login, h, hbc]
  · intro h
    have hnone : GetByEmail st.db e = none := by
      unfold GetByEmail
      rw [List.find?_eq_none]
      intro x hx
      simp only [Bool.and_eq_true, beq_iff_eq, not_and]
      intro hem hact
      rw [h x hx hem] at hact
      cases hact
    simp [Login, hnone]

/-- Witness for C2 at a database whose only matching account is
inactive, presented with its correct password. -/
theorem c2_login_indistinguishable_witness :
    (Login wSvcInactive 0 "b@x.com" "pw123456").1 =
      .error .invalidCredentials :=
  (c2_login_indistinguishable wSvcInactive 0 "b@x.com" "pw123456").2.2
    (by decide)

/-- C8 as frozen is false: at a concrete register request whose email
already exists, the HTTP response status is 400 with error code
BAD_REQUEST, not 409 with ALREADY_EXISTS/CONFLICT. -/
theorem c8_register_conflict_counterexample :
    (registerHandler wSvc 0 (some ("a@x.com", "pw123456", "A", "B")) "u9"
        1).1.status = 400 ∧
    (registerHandler wSvc 0 (some ("a@x.com", "pw123456", "A", "B")) "u9"
        1).1.status ≠ 409 ∧
    (registerHandler wSvc 0 (some ("a@x.com", "pw123456", "A", "B")) "u9"
        1).1.errorCode = some "BAD_REQUEST" := by
  refine ⟨by decide, by decide, by decide⟩

/-- C8 amended: a register request over HTTP that fails because the
email already exists is answered with status 400, success=false and
error code BAD_REQUEST carrying the error message — the handler calls
`response.BadRequest` instead of mapping the failure through the
AppError table, even though `getHTTPStatusForCode` does map
ALREADY_EXISTS and CONFLICT to 409. -/
theorem c8_register_conflict_status (st : AuthService) (now : Nat)
    (email password firstName lastName newID : String) (salt : Nat)
    (hex : EmailExists st.db email = true) :
    registerHandler st now (some (email, password, firstName, lastName))
        newID salt = (respBadRequest "user already exists", st) ∧
    (respBadRequest "user already exists").status = 400 ∧
    (respBadRequest "user already exists").success = false ∧
    (respBadRequest "user already exists").errorCode = some "BAD_REQUEST" ∧
    getHTTPStatusForCode "ALREADY_EXISTS" = 409 ∧
    getHTTPStatusForCode "CONFLICT" = 409 := by
  refine ⟨?_, by decide, by decide, by decide, by decide, by decide⟩
  simp [registerHandler, Register, hex, authErrMessage]

/-- Witness for C8 at the fixture database. -/
theorem c8_register_conflict_status_witness :
    registerHandler wSvc 0 (some ("a@x.com", "pw999999", "A", "B")) "u9" 1 =
      (respBadRequest "user already exists", wSvc) :=
  (c8_register_conflict_status wSvc 0 "a@x.com" "pw999999" "A" "B" "u9" 1
    (by decide)).1

/-- C10: the database-backed `RefreshToken` never touches the session
store (the service state, store included, is returned unchanged on
every path), a success carries only a new access token, and the HTTP
refresh handler echoes the presented refresh token back to the caller,
so the presented token remains the stored, single valid refresh token
for the user. -/
theorem c10_refresh_no_rotation (st : AuthService) (now : Nat)
    (tok : Token) :
    (RefreshToken st now tok).2 = st ∧
    (∀ newTok, RefreshToken st now tok = (.ok newTok, st) →
      refreshTokenHandler st now (some tok) =
        (⟨200, true, none, none, some "Token refreshed successfully",
          some newTok, some tok, none⟩, st)) := by
  constructor
  · unfold RefreshToken
    rcases parseToken st now tok with e | claims
    · rfl
    · dsimp only
      split
      · rfl
      · rcases GetProfile st claims.userID with e2 | user <;> rfl
  · intro newTok h
    simp [refreshTokenHandler, h]

/-- Witness for C10 at a concrete successful refresh. -/
theorem c10_refresh_no_rotation_witness :
    refreshTokenHandler wSvcNoRedis 1 (some wR1n) =
      (⟨200, true, none, none, some "Token refreshed successfully",
        some (generateAccessToken wSvcNoRedis 1 wU), some wR1n, none⟩,
        wSvcNoRedis) :=
  (c10_refresh_no_rotation wSvcNoRedis 1 wR1n).2
    (generateAccessToken wSvcNoRedis 1 wU) (by decide)

/-- Inversion of a successful `Login`: the email resolved to an active
row whose hash matched, the returned tokens are the generated ones,
only the Redis field of the state can change, and when a Redis client
is present the refresh token was written under the user's key with the
refresh TTL. -/
theorem Login_ok {st : AuthService} {t : Nat} {e p : String}
    {u : SvcUser} {a r : Token} {st2 : AuthService}
    (h : Login st t e p = (.ok (u, a, r), st2)) :
    ∃ ru, GetByEmail st.db e = some ru ∧
      CompareHashAndPassword ru.password p = true ∧
      u = toSvcUser ru ∧
      a = generateAccessToken st t u ∧
      r = generateRefreshToken st t u ∧
      st2.db = st.db ∧ st2.jwtSecret = st.jwtSecret ∧
      st2.tokenExpiry = st.tokenExpiry ∧
      st2.refreshExpiry = st.refreshExpiry ∧
      ((st.redisClient = none ∧ st2 = st) ∨
        (∃ store, st.redisClient = some store ∧
          st2.redisClient =
            some (SetWithExpiry store (refreshKey u.id) r t
              st.refreshExpiry))) := by
  unfold Login at h
  rcases hfind : GetByEmail st.db e with _ | ru
  · rw [hfind] at h
    simp at h
  · rw [hfind] at h
    dsimp only at h
    by_cases hbc : CompareHashAndPassword ru.password p = false
    · rw [if_pos hbc] at h
      simp at h
    · rw [if_neg hbc] at h
      have hbc2 : CompareHashAndPassword ru.password p = true := by
        cases hb3 : CompareHashAndPassword ru.password p
        · exact absurd hb3 hbc
        · rfl
      rcases hred : st.redisClient with _ | store
      · rw [hred] at h
        dsimp only at h
        simp only [Prod.mk.injEq, Except.ok.injEq] at h
        obtain ⟨⟨hu, ha, hr⟩, hst⟩ := h
        exact ⟨ru, rfl, hbc2, hu.symm, by rw [← hu, ← ha],
          by rw [← hu, ← hr], by rw [← hst], by rw [← hst],
          by rw [← hst], by rw [← hst], .inl ⟨rfl, hst.symm⟩⟩
      · rw [hred] at h
        dsimp only at h
        simp only [Prod.mk.injEq, Except.ok.injEq] at h
        obtain ⟨⟨hu, ha, hr⟩, hst⟩ := h
        refine ⟨ru, rfl, hbc2, hu.symm, by rw [← hu, ← ha],
          by rw [← hu, ← hr], by rw [← hst], by rw [← hst],
          by rw [← hst], by rw [← hst], .inr ⟨store, rfl, ?_⟩⟩
        rw [← hst, ← hu, ← hr]

/-- C1: when a session store is configured, a successful login
overwrites the store entry under the user's id with the newly issued
refresh token, and a later `RefreshToken` call presenting the earlier
refresh token — still signature-valid and unexpired at `t3` — fails
with `ErrInvalidToken` because the stored value no longer byte-equals
it: at most one refresh token per user is recognized. -/
theorem c1_single_valid_refresh (st : AuthService) (store : SessionStore)
    (t1 t2 t3 : Nat) (e p : String) (u u2 : SvcUser) (a1 r1 a2 r2 : Token)
    (st1 st2 : AuthService)
    (hredis : st.redisClient = some store)
    (h1 : Login st t1 e p = (.ok (u, a1, r1), st1))
    (h2 : Login st1 t2 e p = (.ok (u2, a2, r2), st2))
    (hne : r1 ≠ r2)
    (h13 : t1 ≤ t3) (hv1 : t3 < t1 + st.refreshExpiry)
    (hv2 : t3 < t2 + st.refreshExpiry) :
    (∃ store2, st2.redisClient = some store2 ∧
      GetString store2 t3 (refreshKey u.id) = some r2) ∧
    RefreshToken st2 t3 r1 = (.error .invalidToken, st2) := by
  obtain ⟨ru, hfind1, hbc1, hu1, ha1, hr1, hdb1, hsec1, htk1, hrf1, hcase1⟩ :=
    Login_ok h1
  rcases hcase1 with ⟨hnone, _⟩ | ⟨store0, hsome, hst1red⟩
  · rw [hredis] at hnone
    cases hnone
  obtain ⟨ru2, hfind2, hbc2, hu2, ha2, hr2, hdb2, hsec2, htk2, hrf2, hcase2⟩ :=
    Login_ok h2
  have hru2 : ru = ru2 := by
    rw [hdb1, hfind1] at hfind2
    injection hfind2
  have huu : u2 = u := by
    rw [hu2, hu1, hru2]
  rcases hcase2 with ⟨hnone2, _⟩ | ⟨store1, hsome2, hst2red⟩
  · rw [hst1red] at hnone2
    cases hnone2
  have hparse : parseToken st2 t3 r1 =
      .ok ⟨u.id, u.email, t1, t1 + st.refreshExpiry⟩ := by
    unfold parseToken
    rw [hsec2, hsec1, hr1]
    exact parseWithClaims_newSignedToken st.jwtSecret
      ⟨u.id, u.email, t1, t1 + st.refreshExpiry⟩ t3 h13 hv1
  have hget : GetString (SetWithExpiry store1 (refreshKey u2.id) r2 t2
      st1.refreshExpiry) t3 (refreshKey u.id) = some r2 := by
    rw [huu]
    exact GetString_SetWithExpiry store1 (refreshKey u.id) r2 t2
      st1.refreshExpiry t3 (by rw [hrf1]; exact hv2)
  have hbeq : (r2 == r1) = false :=
    beq_eq_false_iff_ne.mpr (fun hh => hne hh.symm)
  constructor
  · exact ⟨SetWithExpiry store1 (refreshKey u2.id) r2 t2 st1.refreshExpiry,
      hst2red, hget⟩
  · unfold RefreshToken
    rw [hparse]
    dsimp only
    rw [hst2red]
    dsimp only
    rw [hget]
    dsimp only
    rw [hbeq]
    rfl

/-- Witness for C1: two concrete logins at ticks 0 and 1; the store
holds the second refresh token and refreshing with the first fails. -/
theorem c1_single_valid_refresh_witness :
    (∃ store2, wSt2.redisClient = some store2 ∧
      GetString store2 2 (refreshKey wU.id) = some wR2) ∧
    RefreshToken wSt2 2 wR1 = (.error .invalidToken, wSt2) :=
  c1_single_valid_refresh wSvc [] 0 1 2 "a@x.com" "pw123456" wU wU wA1 wR1
    wA2 wR2 wSt1 wSt2 rfl (by decide) (by decide) (by decide) (by decide)
    (by decide) (by decide)

/-- C9: with no session-store client configured (`redisClient` nil),
`Login` records nothing (the state is unchanged), and `RefreshToken`
skips the stored-token comparison entirely: the first login's refresh
token is still exchanged for a new access token after a second login
has issued a newer one. -/
theorem c9_nil_redis_skips_store (st : AuthService) (t1 t2 t3 : Nat)
    (e p : String) (u u2 : SvcUser) (a1 r1 a2 r2 : Token)
    (st1 st2 : AuthService)
    (hredis : st.redisClient = none)
    (h1 : Login st t1 e p = (.ok (u, a1, r1), st1))
    (h2 : Login st1 t2 e p = (.ok (u2, a2, r2), st2))
    (h13 : t1 ≤ t3) (hv1 : t3 < t1 + st.refreshExpiry) :
    st1 = st ∧ st2 = st ∧
    ∃ newTok, RefreshToken st2 t3 r1 = (.ok newTok, st2) := by
  obtain ⟨ru, hfind1, hbc1, hu1, ha1, hr1, hdb1, hsec1, htk1, hrf1, hcase1⟩ :=
    Login_ok h1
  have hst1 : st1 = st := by
    rcases hcase1 with ⟨_, hh⟩ | ⟨store0, hsome, _⟩
    · exact hh
    · rw [hredis] at hsome
      cases hsome
  rw [hst1] at h2
  obtain ⟨ru2, hfind2, hbc2, hu2, ha2, hr2, hdb2, hsec2, htk2, hrf2, hcase2⟩ :=
    Login_ok h2
  have hst2 : st2 = st := by
    rcases hcase2 with ⟨_, hh⟩ | ⟨store1, hsome2, _⟩
    · exact hh
    · rw [hredis] at hsome2
      cases hsome2
  refine ⟨hst1, hst2, ?_⟩
  rw [hst2]
  have hparse : parseToken st t3 r1 =
      .ok ⟨u.id, u.email, t1, t1 + st.refreshExpiry⟩ := by
    unfold parseToken
    rw [hr1]
    exact parseWithClaims_newSignedToken st.jwtSecret
      ⟨u.id, u.email, t1, t1 + st.refreshExpiry⟩ t3 h13 hv1
  have hmem : ru ∈ st.db :=
    List.mem_of_find?_eq_some (by simpa [GetByEmail] using hfind1)
  have hact : ru.active = true := by
    have hp := List.find?_some (by simpa [GetByEmail] using hfind1)
    simp only [Bool.and_eq_true] at hp
    exact hp.2
  have hsome3 : (GetByID st.db u.id).isSome := by
    unfold GetByID
    rw [List.find?_isSome]
    refine ⟨ru, hmem, ?_⟩
    simp [hu1, toSvcUser, hact]
  obtain ⟨v, hv⟩ := Option.isSome_iff_exists.mp hsome3
  refine ⟨generateAccessToken st t3 (toSvcUser v), ?_⟩
  unfold RefreshToken
  rw [hparse]
  dsimp only
  rw [hredis]
  dsimp only
  simp [GetProfile, hv]

/-- Witness for C9: the superseded first refresh token is still
accepted when the service has no Redis client. -/
theorem c9_nil_redis_skips_store_witness :
    wSvcNoRedis = wSvcNoRedis ∧ wSvcNoRedis = wSvcNoRedis ∧
    ∃ newTok, RefreshToken wSvcNoRedis 2 wR1n = (.ok newTok, wSvcNoRedis) :=
  c9_nil_redis_skips_store wSvcNoRedis 0 1 2 "a@x.com" "pw123456" wU wU
    wA1n wR1n wA2n wR2n wSvcNoRedis wSvcNoRedis rfl (by decide) (by decide)
    (by decide) (by decide)

end GoFactory
